import Mathlib

/-!
Verification of the log-parsing pipeline and HTTP handler logic of
`app.py` (sohag02/log-manager).

Strings are embedded as `List Char`.  The parsing loop of
`get_container_logs` (app.py lines 100-140) is embedded function by
function:

* `log_line.split(' ', 1)` together with the tuple unpacking (which
  raises `ValueError` when there is no space) is `splitFirstSpace`,
  returning `none` exactly when the line contains no space character;
* `timestamp_str.split('.')[0]` is `takeBeforeDot`;
* `datetime.strptime(s, '%Y-%m-%dT%H:%M:%S')` is `strptimeIso`
  (greedy bounded digit fields, full-match required, field ranges
  checked as by the `datetime` constructor);
* `.isoformat()` on the parsed value is `isoformat`;
* `json.loads` is an external library call and is abstracted as an
  oracle `jl : List Char → Option J` (a `some` result is a successful
  parse, `none` is `json.JSONDecodeError`);
* `logs.split('\n')` is `splitOnNl`, and the `for` loop with its
  `if log_line:` guard and the broad per-line `except` is `parseLogs`
  (with `parseLogsLogged` additionally threading the `logger.error`
  diagnostic stream that the `except` branch appends to).

The HTTP handlers (`/status`, `/logs`, `/containers`) are embedded as
total functions over the module state (`clientOk` models whether the
startup assignment `docker_client = get_docker_client()` succeeded, or
left `docker_client = None`) and over the Docker collaborator, which is
abstracted as functions returning `EngineResult`.
-/

namespace LogManager

/-- Embeds `log_line.split(' ', 1)` followed by the two-variable tuple
unpacking of app.py line 106: `some (before, after)` when the line
contains a space (split at the first one), `none` when it does not
(the unpacking raises `ValueError`, caught at line 129). -/
def splitFirstSpace : List Char → Option (List Char × List Char)
  | [] => none
  | c :: cs =>
    if c = ' ' then some ([], cs)
    else
      match splitFirstSpace cs with
      | none => none
      | some (l, r) => some (c :: l, r)

/-- Embeds `timestamp_str.split('.')[0]` (app.py line 109): the prefix
of the string before the first `'.'`, the whole string if there is
none. -/
def takeBeforeDot : List Char → List Char
  | [] => []
  | c :: cs => if c = '.' then [] else c :: takeBeforeDot cs

/-- Embeds `logs.split('\n')` (app.py line 102): split on every
newline, keeping empty pieces (Python `str.split` with an explicit
separator). -/
def splitOnNl : List Char → List (List Char)
  | [] => [[]]
  | c :: cs =>
    if c = '\n' then [] :: splitOnNl cs
    else
      match splitOnNl cs with
      | [] => [[c]]
      | p :: ps => (c :: p) :: ps

/-- The result of `datetime.strptime(_, '%Y-%m-%dT%H:%M:%S')`. -/
structure DateTime where
  year : Nat
  month : Nat
  day : Nat
  hour : Nat
  minute : Nat
  second : Nat
deriving DecidableEq

/-- Gregorian leap year, as `calendar.isleap` / the `datetime` module. -/
def isLeap (y : Nat) : Bool :=
  (y % 4 = 0 && y % 100 ≠ 0) || y % 400 = 0

/-- Days in a month, as validated by the `datetime` constructor. -/
def daysInMonth (y m : Nat) : Nat :=
  if m = 2 then (if isLeap y then 29 else 28)
  else if m = 4 || m = 6 || m = 9 || m = 11 then 30
  else 31

/-- The range checks the `datetime` constructor performs on the fields
matched by `strptime` (`MINYEAR = 1`; seconds 0-59). -/
def validDateTime (dt : DateTime) : Bool :=
  1 ≤ dt.year && 1 ≤ dt.month && dt.month ≤ 12 &&
  1 ≤ dt.day && dt.day ≤ daysInMonth dt.year dt.month &&
  dt.hour ≤ 23 && dt.minute ≤ 59 && dt.second ≤ 59

/-- Consume up to `w` leading decimal digits, accumulating their value;
returns (value, number of digits consumed, rest). -/
def takeDigitsAux : Nat → Nat → Nat → List Char → Nat × Nat × List Char
  | _, acc, cnt, [] => (acc, cnt, [])
  | 0, acc, cnt, s => (acc, cnt, s)
  | w + 1, acc, cnt, c :: cs =>
    if c.isDigit then takeDigitsAux w (acc * 10 + (c.toNat - 48)) (cnt + 1) cs
    else (acc, cnt, c :: cs)

/-- A bounded numeric `strptime` field of maximal width `w` (CPython's
value-constrained one-or-two-digit groups such as
`(2[0-3]|[0-1]\d|\d)` for `%H`): take greedily up to `w` digits, at
least one.  The value range is checked afterwards in `validDateTime`;
on this digit-then-literal format the two acceptance sets coincide,
because backtracking to a shorter digit match always leaves a digit
where the non-digit literal separator (or the end of the string) is
required. -/
def parseField (w : Nat) (s : List Char) : Option (Nat × List Char) :=
  match takeDigitsAux w 0 0 s with
  | (v, cnt, rest) => if cnt = 0 then none else some (v, rest)

/-- An exact-width numeric `strptime` field: CPython compiles `%Y` to
the regex `\d\d\d\d`, exactly four digits (years below 1000 must be
zero-padded). -/
def parseFieldExact (w : Nat) (s : List Char) : Option (Nat × List Char) :=
  match takeDigitsAux w 0 0 s with
  | (v, cnt, rest) => if cnt = w then some (v, rest) else none

/-- Expect one literal character (the uncased separators `-` and `:`
of the format). -/
def expectChar (c : Char) : List Char → Option (List Char)
  | [] => none
  | x :: xs => if x = c then some xs else none

/-- Expect one cased literal character in either case: CPython compiles
the `strptime` pattern with `re.IGNORECASE`, so the literal `T` of the
format also matches `t` (no other character case-folds to it). -/
def expectCharCI (up lo : Char) : List Char → Option (List Char)
  | [] => none
  | x :: xs => if x = up || x = lo then some xs else none

/-- Embeds `datetime.strptime(s, '%Y-%m-%dT%H:%M:%S')` (app.py lines
108-111): `%Y` matches exactly four digits (`\d\d\d\d`), the other
fields one or two, the literal `T` matches case-insensitively
(`re.IGNORECASE`), the uncased literals `-` and `:` exactly, the whole
string must be consumed ("unconverted data remains" otherwise), and
the `datetime` constructor range checks apply (including rejecting the
leap seconds 60-61 that the `%S` group itself would match); any
failure raises `ValueError`, here `none`.

Digits are ASCII `0-9`.  CPython's `\d` on `str` additionally matches
any Unicode decimal digit (category Nd) and `int()` converts it, so
this model is exact on ASCII input and sound on all input in the
success direction: whenever it returns `some`, the string consists of
ASCII digits and the format's literals and CPython parses it to the
same value.  A `none` on a string containing non-ASCII characters is
not significant — theorems that rely on the failure of this parser
therefore restrict the parsed token to ASCII. -/
def strptimeIso (s : List Char) : Option DateTime := do
  let (y, r1) ← parseFieldExact 4 s
  let r2 ← expectChar '-' r1
  let (mo, r3) ← parseField 2 r2
  let r4 ← expectChar '-' r3
  let (d, r5) ← parseField 2 r4
  let r6 ← expectCharCI 'T' 't' r5
  let (h, r7) ← parseField 2 r6
  let r8 ← expectChar ':' r7
  let (mi, r9) ← parseField 2 r8
  let r10 ← expectChar ':' r9
  let (sec, r11) ← parseField 2 r10
  let dt : DateTime := ⟨y, mo, d, h, mi, sec⟩
  if r11 = [] && validDateTime dt then some dt else none

/-- Left-pad a number with zeros to width `w`. -/
def padNum (w n : Nat) : List Char :=
  let ds := Nat.toDigits 10 n
  List.replicate (w - ds.length) '0' ++ ds

/-- Embeds `.isoformat()` on a `datetime` with no fraction and no zone
(app.py line 111): `YYYY-MM-DDTHH:MM:SS`. -/
def isoformat (dt : DateTime) : List Char :=
  padNum 4 dt.year ++ '-' :: padNum 2 dt.month ++ '-' :: padNum 2 dt.day ++
  'T' :: padNum 2 dt.hour ++ ':' :: padNum 2 dt.minute ++ ':' :: padNum 2 dt.second

/-- The `message` field of a structured-log entry: either the value
returned by `json.loads` or the plain text. -/
inductive Msg (J : Type) where
  | jsonVal (v : J)
  | str (s : List Char)
deriving DecidableEq

/-- One entry of `structured_logs` (app.py lines 117-135): the
`timestamp` is the `isoformat` string or `None`, the `message` is the
parsed JSON value or plain text, `is_json` the classification flag. -/
structure Record (J : Type) where
  timestamp : Option (List Char)
  message : Msg J
  is_json : Bool
deriving DecidableEq

/-- The best-effort entry appended by the `except` branch (app.py lines
131-135): no timestamp, the entire line as text, not JSON. -/
def fallbackRecord {J : Type} (line : List Char) : Record J :=
  ⟨none, Msg.str line, false⟩

/-- Embeds the inner try/except around `json.loads` (app.py lines
113-128): on success the parsed value with `is_json = True`, on
`JSONDecodeError` the original text with `is_json = False`. -/
def classifyPayload {J : Type} (jl : List Char → Option J)
    (message : List Char) : Msg J × Bool :=
  match jl message with
  | some v => (Msg.jsonVal v, true)
  | none => (Msg.str message, false)

/-- Embeds the body of the per-line try/except (app.py lines 104-135)
for one non-empty line: split at the first space, parse the timestamp
candidate (fraction discarded), classify the payload; any failure of
the split or of the timestamp parse lands in the `except` branch and
yields `fallbackRecord line`. -/
def parseLine {J : Type} (jl : List Char → Option J)
    (line : List Char) : Record J :=
  match splitFirstSpace line with
  | none => fallbackRecord line
  | some (tsTok, message) =>
    match strptimeIso (takeBeforeDot tsTok) with
    | none => fallbackRecord line
    | some dt =>
      let (m, j) := classifyPayload jl message
      ⟨some (isoformat dt), m, j⟩

/-- Embeds the whole parsing loop (app.py lines 101-135): split the raw
text on newlines, skip empty lines (`if log_line:`), append one record
per remaining line. -/
def parseLogs {J : Type} (jl : List Char → Option J)
    (logs : List Char) : List (Record J) :=
  (splitOnNl logs).foldl
    (fun acc l => if l = [] then acc else acc ++ [parseLine jl l]) []

/-- `parseLine` together with the `logger.error` diagnostic the
`except` branch emits (app.py line 130); `diag` is the ambient logger
state, to which the branch appends. -/
def parseLineLogged {J : Type} (jl : List Char → Option J)
    (diag : List (List Char)) (line : List Char) :
    Record J × List (List Char) :=
  match splitFirstSpace line with
  | none => (fallbackRecord line, diag ++ [('E' : Char) :: line])
  | some (tsTok, message) =>
    match strptimeIso (takeBeforeDot tsTok) with
    | none => (fallbackRecord line, diag ++ [('E' : Char) :: line])
    | some dt =>
      let (m, j) := classifyPayload jl message
      (⟨some (isoformat dt), m, j⟩, diag)

/-- The parsing loop threading the logger state. -/
def parseLogsLogged {J : Type} (jl : List Char → Option J)
    (logs : List Char) (diag : List (List Char)) :
    List (Record J) × List (List Char) :=
  (splitOnNl logs).foldl
    (fun p l =>
      if l = [] then p
      else
        let (r, d2) := parseLineLogged jl p.2 l
        (p.1 ++ [r], d2))
    ([], diag)

/-- Outcome of a call into the Docker collaborator: success, the
`docker.errors.NotFound` exception, or any other exception. -/
inductive EngineResult (α : Type) where
  | ok (a : α)
  | notFound
  | failure
deriving DecidableEq

/-- One element of the `/containers` listing (app.py lines 156-160). -/
structure ContainerInfo where
  id : List Char
  name : List Char
  status : List Char
deriving DecidableEq

/-- The `/status` response (app.py lines 52-71): HTTP code, `status`
field, `message` field. -/
structure StatusResp where
  code : Nat
  status : List Char
  message : List Char
deriving DecidableEq

/-- The `/logs` response (app.py lines 73-144): the success body
`{container_id, logs}` or an error body with its HTTP code. -/
inductive LogsResp (J : Type) where
  | success (container_id : List Char) (logs : List (Record J))
  | error (code : Nat) (msg : List Char)
deriving DecidableEq

/-- HTTP status code of a `/logs` response (Flask defaults to 200). -/
def LogsResp.code {J : Type} : LogsResp J → Nat
  | .success _ _ => 200
  | .error c _ => c

/-- The `/containers` response (app.py lines 146-166). -/
inductive ContainersResp where
  | success (cs : List ContainerInfo)
  | error (code : Nat) (msg : List Char)
deriving DecidableEq

/-- Embeds `get_docker_status` (app.py lines 52-71).  `clientOk` is
whether the startup initialization left `docker_client` non-`None`;
`ping` is the outcome of `docker_client.ping()`. -/
def getDockerStatus (clientOk : Bool) (ping : EngineResult Unit) : StatusResp :=
  if clientOk = false then
    ⟨500, "error".toList, "Docker client not initialized".toList⟩
  else
    match ping with
    | .ok _ => ⟨200, "ok".toList, "Docker daemon is accessible".toList⟩
    | _ => ⟨500, "error".toList, "Docker daemon is not accessible".toList⟩

/-- Embeds `get_container_logs` (app.py lines 73-144).  `containerId`
is `request.args.get('container_id')` (`none` when absent);
`getContainer` is `docker_client.containers.get` (its `NotFound` is
caught at line 90, any other exception falls to the outer handler at
line 142); `fetchLogs cid n` is `container.logs(tail=n, ...)` followed
by `.decode('utf-8')` (any exception falls to the outer handler). -/
def getContainerLogs {J : Type} (jl : List Char → Option J)
    (clientOk : Bool) (containerId : Option (List Char))
    (getContainer : List Char → EngineResult Unit)
    (fetchLogs : List Char → Nat → EngineResult (List Char)) : LogsResp J :=
  if clientOk = false then
    .error 500 "Docker client not initialized".toList
  else
    match containerId with
    | none => .error 400 "Container ID is required".toList
    | some cid =>
      if cid = [] then .error 400 "Container ID is required".toList
      else
        match getContainer cid with
        | .notFound =>
          .error 404 ("Container ".toList ++ cid ++ " not found".toList)
        | .failure => .error 500 "error getting logs".toList
        | .ok _ =>
          match fetchLogs cid 100 with
          | .ok raw => .success cid (parseLogs jl raw)
          | _ => .error 500 "error getting logs".toList

/-- Embeds `list_containers` (app.py lines 146-166); `ls` is the
outcome of `docker_client.containers.list()` (already projected to the
three reported fields). -/
def listContainers (clientOk : Bool)
    (ls : EngineResult (List ContainerInfo)) : ContainersResp :=
  if clientOk = false then
    .error 500 "Docker client not initialized".toList
  else
    match ls with
    | .ok cs => .success cs
    | _ => .error 500 "error listing containers".toList

lemma splitFirstSpace_of_no_space (l : List Char)
    (h : l.all (fun c => !(c == ' ')) = true) :
    splitFirstSpace l = none := by
  induction l with
  | nil => rfl
  | cons c cs ih =>
    simp only [List.all_cons, Bool.and_eq_true, Bool.not_eq_eq_eq_not,
      Bool.not_true, beq_eq_false_iff_ne, ne_eq] at h
    simp [splitFirstSpace, h.1, ih h.2]

lemma splitFirstSpace_append (l r : List Char)
    (h : l.all (fun c => !(c == ' ')) = true) :
    splitFirstSpace (l ++ ' ' :: r) = some (l, r) := by
  induction l with
  | nil => simp [splitFirstSpace]
  | cons c cs ih =>
    simp only [List.all_cons, Bool.and_eq_true, Bool.not_eq_eq_eq_not,
      Bool.not_true, beq_eq_false_iff_ne, ne_eq] at h
    simp [splitFirstSpace, h.1, ih h.2]

lemma takeBeforeDot_append (l r : List Char)
    (h : l.all (fun c => !(c == '.')) = true) :
    takeBeforeDot (l ++ '.' :: r) = l := by
  induction l with
  | nil => simp [takeBeforeDot]
  | cons c cs ih =>
    simp only [List.all_cons, Bool.and_eq_true, Bool.not_eq_eq_eq_not,
      Bool.not_true, beq_eq_false_iff_ne, ne_eq] at h
    simp [takeBeforeDot, h.1, ih h.2]

lemma splitOnNl_append (l r : List Char)
    (h : l.all (fun c => !(c == '\n')) = true) :
    splitOnNl (l ++ '\n' :: r) = l :: splitOnNl r := by
  induction l with
  | nil => simp [splitOnNl]
  | cons c cs ih =>
    simp only [List.all_cons, Bool.and_eq_true, Bool.not_eq_eq_eq_not,
      Bool.not_true, beq_eq_false_iff_ne, ne_eq] at h
    rw [List.cons_append]
    rw [splitOnNl, if_neg h.1, ih h.2]

lemma parseLogs_foldl_eq {J : Type} (jl : List Char → Option J)
    (xs : List (List Char)) :
    ∀ acc : List (Record J),
      xs.foldl (fun a l => if l = [] then a else a ++ [parseLine jl l]) acc
        = acc ++ (xs.filter (fun l => !l.isEmpty)).map (parseLine jl) := by
  induction xs with
  | nil => intro acc; simp
  | cons x xs ih =>
    intro acc
    rcases x with _ | ⟨c, cs⟩
    · simpa using ih acc
    · simp only [List.foldl_cons, if_neg (List.cons_ne_nil c cs)]
      rw [ih (acc ++ [parseLine jl (c :: cs)])]
      simp [List.filter_cons, List.isEmpty]

lemma parseLogs_eq_map {J : Type} (jl : List Char → Option J)
    (logs : List Char) :
    parseLogs jl logs
      = ((splitOnNl logs).filter (fun l => !l.isEmpty)).map (parseLine jl) := by
  rw [parseLogs, parseLogs_foldl_eq]
  simp

lemma parseLineLogged_fst {J : Type} (jl : List Char → Option J)
    (diag : List (List Char)) (line : List Char) :
    (parseLineLogged jl diag line).1 = parseLine jl line := by
  rw [parseLineLogged, parseLine]
  rcases h : splitFirstSpace line with _ | ⟨ts, msg⟩
  · rfl
  · rcases h2 : strptimeIso (takeBeforeDot ts) with _ | dt <;> simp [h2]

lemma parseLogsLogged_foldl_fst {J : Type} (jl : List Char → Option J)
    (xs : List (List Char)) :
    ∀ (acc : List (Record J)) (d : List (List Char)),
      (xs.foldl
        (fun p l =>
          if l = [] then p
          else
            let q := parseLineLogged jl p.2 l
            (p.1 ++ [q.1], q.2))
        (acc, d)).1
      = xs.foldl (fun a l => if l = [] then a else a ++ [parseLine jl l]) acc := by
  induction xs with
  | nil => intro acc d; rfl
  | cons x xs ih =>
    intro acc d
    by_cases h : x = []
    · simp [h, ih]
    · simp only [List.foldl_cons, if_neg h]
      rw [ih, parseLineLogged_fst]

lemma parseLogsLogged_fst {J : Type} (jl : List Char → Option J)
    (logs : List Char) (d : List (List Char)) :
    (parseLogsLogged jl logs d).1 = parseLogs jl logs := by
  rw [parseLogsLogged, parseLogs]
  exact parseLogsLogged_foldl_fst jl (splitOnNl logs) [] d

/-- A `json.loads` oracle that rejects everything (used to instantiate
witnesses whose payloads are not JSON). -/
def jlNone : List Char → Option Unit := fun _ => none

/-- A `json.loads` oracle accepting exactly the document `\x7b\x7d`
(the empty JSON object), used to instantiate witnesses on the success
branch of the classification. -/
def jlBrace : List Char → Option Nat :=
  fun s => if s = "\x7b\x7d".toList then some 0 else none

lemma parseLogs_length {J : Type} (jl : List Char → Option J)
    (logs : List Char) :
    (parseLogs jl logs).length
      = (splitOnNl logs).countP (fun l => !l.isEmpty) := by
  rw [parseLogs_eq_map, List.length_map, List.countP_eq_length_filter]

lemma all_ne_space_of_no_whitespace (l : List Char)
    (h : l.all (fun c => !c.isWhitespace) = true) :
    l.all (fun c => !(c == ' ')) = true := by
  rw [List.all_eq_true] at h ⊢
  intro c hc
  have hw := h c hc
  revert hw
  simp [Char.isWhitespace]
  tauto

lemma all_ne_nl_of_no_whitespace (l : List Char)
    (h : l.all (fun c => !c.isWhitespace) = true) :
    l.all (fun c => !(c == '\n')) = true := by
  rw [List.all_eq_true] at h ⊢
  intro c hc
  have hw := h c hc
  revert hw
  simp [Char.isWhitespace]

/-- C1: a non-empty line containing no whitespace yields exactly one
best-effort record — payload the entire line, timestamp `None`,
`is_json` false — and processing of the remaining lines of the batch
continues unchanged (the per-line `except` contains the failure). -/
theorem c1_no_whitespace_line_isolated {J : Type} (jl : List Char → Option J)
    (line rest : List Char) (hne : line ≠ [])
    (hw : line.all (fun c => !c.isWhitespace) = true) :
    parseLine jl line = ⟨none, Msg.str line, false⟩ ∧
    parseLogs jl (line ++ '\n' :: rest)
      = ⟨none, Msg.str line, false⟩ :: parseLogs jl rest := by
  have hsp := all_ne_space_of_no_whitespace line hw
  have hnl := all_ne_nl_of_no_whitespace line hw
  have h1 : parseLine jl line = ⟨none, Msg.str line, false⟩ := by
    rw [parseLine, splitFirstSpace_of_no_space line hsp]
    rfl
  refine ⟨h1, ?_⟩
  rw [parseLogs_eq_map, parseLogs_eq_map, splitOnNl_append line rest hnl]
  rcases line with _ | ⟨c, cs⟩
  · exact absurd rfl hne
  · rw [List.filter_cons]
    simp [List.isEmpty, h1]

/-- C1 witness: the malformed line `garbage-no-space` from the spec's
test catalogue, followed by one further line that is still parsed. -/
theorem c1_witness :
    parseLine jlNone "garbage-no-space".toList
      = ⟨none, Msg.str "garbage-no-space".toList, false⟩ ∧
    parseLogs jlNone ("garbage-no-space".toList ++ '\n' :: "next line".toList)
      = ⟨none, Msg.str "garbage-no-space".toList, false⟩
          :: parseLogs jlNone "next line".toList :=
  c1_no_whitespace_line_isolated jlNone "garbage-no-space".toList
    "next line".toList (by decide) (by decide)

/-- C2: when a line splits into a parseable timestamp token and a
payload, the payload classification is exhaustive and faithful: if the
`json.loads` oracle parses the payload to a value `v`, the record's
message is that very value and `is_json` is true; if the oracle fails,
the message is the original payload string unchanged and `is_json` is
false.  Totality of the classification is inherent: `parseLine` is a
total function. -/
theorem c2_payload_classification {J : Type} (jl : List Char → Option J)
    (ts msg : List Char) (dt : DateTime)
    (hts : strptimeIso (takeBeforeDot ts) = some dt)
    (hsp : ts.all (fun c => !(c == ' ')) = true) :
    (∀ v, jl msg = some v →
      parseLine jl (ts ++ ' ' :: msg)
        = ⟨some (isoformat dt), Msg.jsonVal v, true⟩) ∧
    (jl msg = none →
      parseLine jl (ts ++ ' ' :: msg)
        = ⟨some (isoformat dt), Msg.str msg, false⟩) := by
  constructor
  · intro v hv
    simp [parseLine, splitFirstSpace_append ts msg hsp, hts, classifyPayload, hv]
  · intro hv
    simp [parseLine, splitFirstSpace_append ts msg hsp, hts, classifyPayload, hv]

/-- C2 witness: the JSON payload `\x7b\x7d` is classified as JSON with
the oracle's value, and the non-JSON payload `hello` is kept as the
exact original text. -/
theorem c2_witness :
    parseLine jlBrace ("2024-01-02T03:04:05".toList ++ ' ' :: "\x7b\x7d".toList)
      = ⟨some (isoformat ⟨2024, 1, 2, 3, 4, 5⟩), Msg.jsonVal 0, true⟩ ∧
    parseLine jlBrace ("2024-01-02T03:04:05".toList ++ ' ' :: "hello".toList)
      = ⟨some (isoformat ⟨2024, 1, 2, 3, 4, 5⟩), Msg.str "hello".toList, false⟩ :=
  have h1 := c2_payload_classification jlBrace "2024-01-02T03:04:05".toList
    "\x7b\x7d".toList ⟨2024, 1, 2, 3, 4, 5⟩ (by decide) (by decide)
  have h2 := c2_payload_classification jlBrace "2024-01-02T03:04:05".toList
    "hello".toList ⟨2024, 1, 2, 3, 4, 5⟩ (by decide) (by decide)
  ⟨h1.1 0 (by decide), h2.2 (by decide)⟩

/-- C3 counterexample: the first token of
`2024-01-02T03:04:05Z hello` is a valid timestamp of the profile
`YYYY-MM-DDTHH:MM:SS` followed by the zone suffix `Z` and no fractional
part; the prefix before the zone marker parses, yet the decoder does
not extract it: `split('.')[0]` leaves the `Z` in place, `strptime`
fails, and the line falls into the best-effort branch with
`timestamp = None`. -/
theorem c3_counterexample :
    strptimeIso "2024-01-02T03:04:05".toList = some ⟨2024, 1, 2, 3, 4, 5⟩ ∧
    parseLine jlNone "2024-01-02T03:04:05Z hello".toList
      = ⟨none, Msg.str "2024-01-02T03:04:05Z hello".toList, false⟩ ∧
    (parseLine jlNone "2024-01-02T03:04:05Z hello".toList).timestamp
      ≠ some (isoformat ⟨2024, 1, 2, 3, 4, 5⟩) := by
  refine ⟨by decide, by decide, by decide⟩

/-- C3 (amended): only the part of the first token from the first `.`
on is discarded before timestamp parsing; when the token is a valid
`YYYY-MM-DDTHH:MM:SS` timestamp followed by `.` and an arbitrary
fraction (possibly including a zone suffix), the decoder extracts
exactly the timestamp parsed from the prefix before the `.`.  A zone
suffix not preceded by `.` is not discarded and makes the parse fail
(timestamp absent, best-effort record). -/
theorem c3_fraction_discarded {J : Type} (jl : List Char → Option J)
    (ts frac msg : List Char) (dt : DateTime)
    (hts : strptimeIso ts = some dt)
    (hsp : (ts ++ '.' :: frac).all (fun c => !(c == ' ')) = true)
    (hdot : ts.all (fun c => !(c == '.')) = true) :
    parseLine jl ((ts ++ '.' :: frac) ++ ' ' :: msg)
      = ⟨some (isoformat dt), (classifyPayload jl msg).1,
          (classifyPayload jl msg).2⟩ := by
  have hsplit := splitFirstSpace_append (ts ++ '.' :: frac) msg hsp
  have hdot2 := takeBeforeDot_append ts frac hdot
  rw [parseLine]
  simp only [hsplit, hdot2, hts]

/-- C3 witness: a Docker-style RFC3339Nano timestamp with fractional
seconds and zone suffix; the fraction (zone included) is discarded and
the timestamp is extracted. -/
theorem c3_witness :
    parseLine jlNone
        (("2024-01-02T03:04:05".toList ++ '.' :: "123456789Z".toList)
          ++ ' ' :: "hello".toList)
      = ⟨some (isoformat ⟨2024, 1, 2, 3, 4, 5⟩),
          (classifyPayload jlNone "hello".toList).1,
          (classifyPayload jlNone "hello".toList).2⟩ :=
  c3_fraction_discarded jlNone "2024-01-02T03:04:05".toList
    "123456789Z".toList "hello".toList ⟨2024, 1, 2, 3, 4, 5⟩
    (by decide) (by decide) (by decide)

/-- C4 counterexample: the line `notatimestamp hello` contains a space
separator and its first token fails to parse as a timestamp; the claim
says the record's payload is the remainder `hello` after the split, but
the code's `except` branch stores the entire original line
`notatimestamp hello` as the message. -/
theorem c4_counterexample :
    splitFirstSpace "notatimestamp hello".toList
      = some ("notatimestamp".toList, "hello".toList) ∧
    strptimeIso (takeBeforeDot "notatimestamp".toList) = none ∧
    (parseLine jlNone "notatimestamp hello".toList).message
      = Msg.str "notatimestamp hello".toList ∧
    Msg.str "notatimestamp hello".toList ≠ (Msg.str "hello".toList : Msg Unit) := by
  refine ⟨by decide, by decide, by decide, by decide⟩

/-- C4 (amended): a line that splits at a space but whose first token
fails the timestamp parse is not rejected: it yields a best-effort
record with `timestamp = None` and payload equal to the ENTIRE original
line (not the remainder after the split — the broad `except` at app.py
line 129 stores `log_line`, not `message`).  The token's parsed prefix
is restricted to ASCII: `strptimeIso` is exact there, whereas CPython
additionally parses non-ASCII Unicode decimal digits, so a model
failure on a non-ASCII token would not witness a failure of the
code's `strptime`. -/
theorem c4_bad_timestamp_whole_line {J : Type} (jl : List Char → Option J)
    (line ts msg : List Char)
    (hsplit : splitFirstSpace line = some (ts, msg))
    (hascii : (takeBeforeDot ts).all (fun c => c.toNat < 128) = true)
    (hts : strptimeIso (takeBeforeDot ts) = none) :
    parseLine jl line = ⟨none, Msg.str line, false⟩ := by
  simp [parseLine, hsplit, hts, fallbackRecord]

/-- C4 witness: the unparseable-timestamp line `notatimestamp hello`
(all ASCII) yields the whole-line best-effort record. -/
theorem c4_witness :
    parseLine jlNone "notatimestamp hello".toList
      = ⟨none, Msg.str "notatimestamp hello".toList, false⟩ :=
  c4_bad_timestamp_whole_line jlNone "notatimestamp hello".toList
    "notatimestamp".toList "hello".toList (by decide) (by decide) (by decide)

/-- C5: empty lines contribute no record and every non-empty line
contributes exactly one: the number of records equals the number of
non-empty pieces of the newline split. -/
theorem c5_empty_lines_dropped {J : Type} (jl : List Char → Option J)
    (logs : List Char) :
    (parseLogs jl logs).length
      = (splitOnNl logs).countP (fun l => !l.isEmpty) :=
  parseLogs_length jl logs

/-- C6: within one source the output order is exactly the input line
order: the records list is the in-order map of the per-line parser over
the non-empty lines of the raw text. -/
theorem c6_order_preserved {J : Type} (jl : List Char → Option J)
    (logs : List Char) :
    parseLogs jl logs
      = ((splitOnNl logs).filter (fun l => !l.isEmpty)).map (parseLine jl) :=
  parseLogs_eq_map jl logs

/-- A concrete collaborator for witnesses: exactly the container id
`known` exists. -/
def gcKnown : List Char → EngineResult Unit :=
  fun cid => if cid = "known".toList then .ok () else .notFound

/-- A concrete log fetch for witnesses: always returns one fixed
line. -/
def flFixed : List Char → Nat → EngineResult (List Char) :=
  fun _ _ => .ok "2024-01-02T03:04:05 hi".toList

/-- C7: the `/logs` handler reports 400 when `container_id` is absent,
404 when the engine raises `NotFound` for the id, 500 when the engine
call fails otherwise (lookup or fetch), and on a successful fetch it
returns the parsed records with status 200 regardless of the raw
content — per-line parse failures are never surfaced as an error
response. -/
theorem c7_http_error_codes {J : Type} (jl : List Char → Option J)
    (gc : List Char → EngineResult Unit)
    (fl : List Char → Nat → EngineResult (List Char)) (cid raw : List Char) :
    (getContainerLogs jl true none gc fl
      = .error 400 "Container ID is required".toList) ∧
    (cid ≠ [] → gc cid = .notFound →
      getContainerLogs jl true (some cid) gc fl
        = .error 404 ("Container ".toList ++ cid ++ " not found".toList)) ∧
    (cid ≠ [] → gc cid = .failure →
      (getContainerLogs jl true (some cid) gc fl).code = 500) ∧
    (cid ≠ [] → gc cid = .ok () → fl cid 100 = .failure →
      (getContainerLogs jl true (some cid) gc fl).code = 500) ∧
    (cid ≠ [] → gc cid = .ok () → fl cid 100 = .ok raw →
      getContainerLogs jl true (some cid) gc fl
        = .success cid (parseLogs jl raw)) := by
  refine ⟨by simp [getContainerLogs], ?_, ?_, ?_, ?_⟩
  · intro hne hgc
    simp [getContainerLogs, hne, hgc]
  · intro hne hgc
    simp [getContainerLogs, hne, hgc, LogsResp.code]
  · intro hne hgc hfl
    simp [getContainerLogs, hne, hgc, hfl, LogsResp.code]
  · intro hne hgc hfl
    simp [getContainerLogs, hne, hgc, hfl]

/-- C7 witness: against the concrete collaborator, a missing id gives
400, an unknown id gives 404, and a known id gives the parsed records
with status 200. -/
theorem c7_witness :
    getContainerLogs jlNone true none gcKnown flFixed
      = .error 400 "Container ID is required".toList ∧
    getContainerLogs jlNone true (some "missing".toList) gcKnown flFixed
      = .error 404 ("Container ".toList ++ "missing".toList ++ " not found".toList) ∧
    getContainerLogs jlNone true (some "known".toList) gcKnown flFixed
      = .success "known".toList
          (parseLogs jlNone "2024-01-02T03:04:05 hi".toList) :=
  have h1 := c7_http_error_codes jlNone gcKnown flFixed "missing".toList
    "2024-01-02T03:04:05 hi".toList
  have h2 := c7_http_error_codes jlNone gcKnown flFixed "known".toList
    "2024-01-02T03:04:05 hi".toList
  ⟨h1.1, h1.2.1 (by decide) (by decide),
    h2.2.2.2.2 (by decide) (by decide) (by decide)⟩

/-- C8: the handler requests the last 100 lines (`tail=100` is
hard-wired at app.py line 95); for any collaborator whose fetch with
tail 100 returns at most 100 non-empty lines, every successful `/logs`
response carries at most 100 records. -/
theorem c8_response_bounded_by_100 {J : Type} (jl : List Char → Option J)
    (gc : List Char → EngineResult Unit)
    (fl : List Char → Nat → EngineResult (List Char)) (cid : List Char)
    (hfl : ∀ raw, fl cid 100 = .ok raw →
      (splitOnNl raw).countP (fun l => !l.isEmpty) ≤ 100) :
    ∀ cid2 recs,
      getContainerLogs jl true (some cid) gc fl = .success cid2 recs →
      recs.length ≤ 100 := by
  intro cid2 recs h
  by_cases hc : cid = []
  · simp [getContainerLogs, hc] at h
  · rcases hgc : gc cid with a | _ | _
    · rcases hfl2 : fl cid 100 with raw | _ | _
      · simp [getContainerLogs, hc, hgc, hfl2] at h
        rw [← h.2, parseLogs_length]
        exact hfl raw hfl2
      · simp [getContainerLogs, hc, hgc, hfl2] at h
      · simp [getContainerLogs, hc, hgc, hfl2] at h
    · simp [getContainerLogs, hc, hgc] at h
    · simp [getContainerLogs, hc, hgc] at h

/-- C8 witness: the concrete fetch returns one line, the hypothesis on
it is discharged by evaluation, and the successful response carries at
most 100 records. -/
theorem c8_witness :
    (parseLogs jlNone "2024-01-02T03:04:05 hi".toList).length ≤ 100 :=
  c8_response_bounded_by_100 jlNone gcKnown flFixed "known".toList
    (fun raw hr => by
      have h : "2024-01-02T03:04:05 hi".toList = raw := by
        injection hr
      rw [← h]
      decide)
    "known".toList (parseLogs jlNone "2024-01-02T03:04:05 hi".toList)
    (by decide)

/-- C9: when the startup initialization left `docker_client = None`,
every request path — `/status`, `/logs`, `/containers` — detects the
uninitialized handle and answers a 500 error body instead of raising
(each embedded handler is a total function returning that error
value). -/
theorem c9_uninitialized_client_500 {J : Type} (jl : List Char → Option J)
    (ping : EngineResult Unit) (ls : EngineResult (List ContainerInfo))
    (containerId : Option (List Char))
    (gc : List Char → EngineResult Unit)
    (fl : List Char → Nat → EngineResult (List Char)) :
    getDockerStatus false ping
      = ⟨500, "error".toList, "Docker client not initialized".toList⟩ ∧
    getContainerLogs jl false containerId gc fl
      = .error 500 "Docker client not initialized".toList ∧
    listContainers false ls
      = .error 500 "Docker client not initialized".toList :=
  ⟨rfl, rfl, rfl⟩

/-- C10: normalization is deterministic and depends on nothing outside
the raw text: the records produced by the logging-aware pipeline are
the same for any ambient logger state, and coincide with the pure
pipeline run on the same input. -/
theorem c10_deterministic {J : Type} (jl : List Char → Option J)
    (raw : List Char) (d1 d2 : List (List Char)) :
    (parseLogsLogged jl raw d1).1 = (parseLogsLogged jl raw d2).1 ∧
    (parseLogsLogged jl raw d1).1 = parseLogs jl raw := by
  rw [parseLogsLogged_fst, parseLogsLogged_fst]
  exact ⟨rfl, rfl⟩

end LogManager
